import Mathlib

/-!
Verification of the AliMPay payment-URL signing utilities.

This file shallowly embeds the Python sources
`generate_payment_url.py` (the "v1" signer and URL builder),
`generate_payment_url_v2.py` (the "v2" signer and URL builder, shared with
`test_payment.py`), and `test_alipay_deeplink.py` (the deep-link test
harness), and proves properties of the signing protocol, URL construction
and harness control flow.

Machine integers are modelled as `Nat` with explicit `% 2^32` (resp.
`% 2^64`) where the MD5 algorithm overflows; byte strings are `List Nat`
with every element `< 256`; Python `time.time()` is an explicit `now`
parameter.
-/

set_option maxRecDepth 100000

namespace AliMPay

/-! ## MD5 over byte lists (hashlib.md5, as used by both signers) -/

/-- Per-round left-rotation amounts of MD5. -/
def mdS : List Nat :=
  [7, 12, 17, 22, 7, 12, 17, 22, 7, 12, 17, 22, 7, 12, 17, 22,
   5, 9, 14, 20, 5, 9, 14, 20, 5, 9, 14, 20, 5, 9, 14, 20,
   4, 11, 16, 23, 4, 11, 16, 23, 4, 11, 16, 23, 4, 11, 16, 23,
   6, 10, 15, 21, 6, 10, 15, 21, 6, 10, 15, 21, 6, 10, 15, 21]

/-- MD5 sine-derived round constants, `floor(abs(sin(i+1)) * 2^32)`. -/
def mdK : List Nat :=
  [3614090360, 3905402710, 606105819, 3250441966,
   4118548399, 1200080426, 2821735955, 4249261313,
   1770035416, 2336552879, 4294925233, 2304563134,
   1804603682, 4254626195, 2792965006, 1236535329,
   4129170786, 3225465664, 643717713, 3921069994,
   3593408605, 38016083, 3634488961, 3889429448,
   568446438, 3275163606, 4107603335, 1163531501,
   2850285829, 4243563512, 1735328473, 2368359562,
   4294588738, 2272392833, 1839030562, 4259657740,
   2763975236, 1272893353, 4139469664, 3200236656,
   681279174, 3936430074, 3572445317, 76029189,
   3654602809, 3873151461, 530742520, 3299628645,
   4096336452, 1126891415, 2878612391, 4237533241,
   1700485571, 2399980690, 4293915773, 2240044497,
   1873313359, 4264355552, 2734768916, 1309151649,
   4149444226, 3174756917, 718787259, 3951481745]

/-- 32-bit left rotation (input assumed `< 2^32`). -/
def rotl32 (x n : Nat) : Nat :=
  ((x <<< n) ||| (x >>> (32 - n))) % 4294967296

/-- Little-endian 32-bit word `g` of a 64-byte block. -/
def md5word (block : List Nat) (g : Nat) : Nat :=
  block.getD (4 * g) 0 + 256 * block.getD (4 * g + 1) 0 +
    65536 * block.getD (4 * g + 2) 0 + 16777216 * block.getD (4 * g + 3) 0

/-- One of the 64 MD5 rounds on state `(a, b, c, d)`. -/
def md5round (block : List Nat) (st : Nat × Nat × Nat × Nat) (i : Nat) :
    Nat × Nat × Nat × Nat :=
  let (a, b, c, d) := st
  let f :=
    if i < 16 then (b &&& c) ||| ((b ^^^ 4294967295) &&& d)
    else if i < 32 then (d &&& b) ||| ((d ^^^ 4294967295) &&& c)
    else if i < 48 then b ^^^ c ^^^ d
    else c ^^^ (b ||| (d ^^^ 4294967295))
  let g :=
    if i < 16 then i
    else if i < 32 then (5 * i + 1) % 16
    else if i < 48 then (3 * i + 5) % 16
    else (7 * i) % 16
  let tmp := (f + a + mdK.getD i 0 + md5word block g) % 4294967296
  (d, (b + rotl32 tmp (mdS.getD i 0)) % 4294967296, b, c)

/-- Process one 64-byte block. -/
def md5block (st : Nat × Nat × Nat × Nat) (block : List Nat) :
    Nat × Nat × Nat × Nat :=
  let (a, b, c, d) := (List.range 64).foldl (md5round block) st
  ((st.1 + a) % 4294967296, (st.2.1 + b) % 4294967296,
   (st.2.2.1 + c) % 4294967296, (st.2.2.2 + d) % 4294967296)

/-- Four little-endian bytes of a 32-bit word. -/
def le4 (n : Nat) : List Nat :=
  [n % 256, n / 256 % 256, n / 65536 % 256, n / 16777216 % 256]

/-- Eight little-endian bytes of a 64-bit length field. -/
def le8 (n : Nat) : List Nat :=
  le4 (n % 4294967296) ++ le4 (n / 4294967296)

/-- MD5 padding: `0x80`, zeros to 56 mod 64, then the bit length. -/
def md5pad (msg : List Nat) : List Nat :=
  msg ++ 128 :: (List.replicate ((119 - msg.length % 64) % 64) 0 ++
    le8 (msg.length * 8 % 18446744073709551616))

/-- Split a byte list into 64-byte chunks (fuel-based structural recursion,
`fuel` bounds the number of chunks). -/
def chunksAux : Nat → List Nat → List (List Nat)
  | 0, _ => []
  | _, [] => []
  | fuel + 1, l => l.take 64 :: chunksAux fuel (l.drop 64)

/-- Split a byte list into 64-byte chunks. -/
def chunks64 (l : List Nat) : List (List Nat) := chunksAux l.length l

/-- The 16 digest bytes of MD5 of a byte message. -/
def md5digest (msg : List Nat) : List Nat :=
  let st := (chunks64 (md5pad msg)).foldl md5block
    (1732584193, 4023233417, 2562383102, 271733878)
  le4 st.1 ++ le4 st.2.1 ++ le4 st.2.2.1 ++ le4 st.2.2.2

/-- The lowercase hexadecimal alphabet used by `hexdigest`. -/
def hexChars : List Char := "0123456789abcdef".data

/-- Hex digit of a nibble. -/
def hexDigit (n : Nat) : Char := hexChars.getD n '0'

/-- Two lowercase hex characters of a byte. -/
def byteHex (b : Nat) : List Char := [hexDigit (b / 16), hexDigit (b % 16)]

/-- `hashlib.md5(...).hexdigest()` on a byte message. -/
def md5hex (msg : List Nat) : String :=
  String.mk (((md5digest msg).map byteHex).flatten)

/-! ## UTF-8 encoding (`str.encode('utf-8')`) -/

/-- UTF-8 bytes of a single character (Chars are Unicode scalar values). -/
def utf8Char (c : Char) : List Nat :=
  let n := c.toNat
  if n < 128 then [n]
  else if n < 2048 then [192 + n / 64, 128 + n % 64]
  else if n < 65536 then [224 + n / 4096, 128 + n / 64 % 64, 128 + n % 64]
  else [240 + n / 262144, 128 + n / 4096 % 64, 128 + n / 64 % 64, 128 + n % 64]

/-- UTF-8 bytes of a character list. -/
def utf8Encode (cs : List Char) : List Nat := (cs.map utf8Char).flatten

/-- `md5` from generate_payment_url_v2.py / test_payment.py:
MD5 hex digest of the UTF-8 encoding of a text string. -/
def md5 (text : String) : String := md5hex (utf8Encode text.toList)

/-- Whether every character of a string is a lowercase hex digit. -/
def isLowerHex (s : String) : Bool := s.data.all (fun c => hexChars.contains c)

/-! ## Python values (dict values seen by the v2 signer) -/

/-- The Python values that can appear in a parameter dict in these scripts:
strings, integers, booleans and `None` (floats are outside the model). -/
inductive PyVal where
  | str (s : String)
  | int (n : Int)
  | bool (b : Bool)
  | none
deriving DecidableEq

/-- Python truthiness (`if v:`) of a parameter value. -/
def pyTruthy : PyVal → Bool
  | .str s => s != ""
  | .int n => n != 0
  | .bool b => b
  | .none => false

/-- Python `str()` of a parameter value, as used by f-string formatting. -/
def pyStr : PyVal → String
  | .str s => s
  | .int n => toString n
  | .bool b => if b then "True" else "False"
  | .none => "None"

/-! ## Python string ordering (code-point lexicographic) -/

/-- Python's `<=` on strings as character lists: lexicographic by
Unicode code point. -/
def charListLe : List Char → List Char → Bool
  | _ :: _, [] => false
  | [], _ => true
  | x :: xs, y :: ys =>
    if x.toNat < y.toNat then true
    else if y.toNat < x.toNat then false
    else charListLe xs ys

/-- Python's `<=` on strings. -/
def strLe (a b : String) : Prop := charListLe a.data b.data = true

instance : DecidableRel strLe := fun a b => by
  unfold strLe
  infer_instance

/-! ## The v1 signer (generate_payment_url.py, lines 18-22) -/

/-- Ordering used by Python `sorted(params.items())` on string pairs:
lexicographic on the (key, value) tuple. -/
def pairLeB (a b : String × String) : Bool :=
  if a.1 = b.1 then charListLe a.2.data b.2.data else charListLe a.1.data b.1.data

/-- The tuple ordering as a relation, for sorting. -/
def pairLe (a b : String × String) : Prop := pairLeB a b = true

instance : DecidableRel pairLe := fun a b => by
  unfold pairLe
  infer_instance

/-- `generate_sign` of generate_payment_url.py: sort the items, join as
`k=v` with `&`, append the key, MD5. No key is stripped and no empty
value is removed. -/
def generate_sign_v1 (params : List (String × String)) (key : String) : String :=
  let sorted_params := List.insertionSort pairLe params
  let sign_str :=
    String.intercalate "&" (sorted_params.map (fun kv => kv.1 ++ "=" ++ kv.2)) ++ key
  md5 sign_str

/-! ## The v2 signer (generate_payment_url_v2.py lines 16-45, identical in
test_payment.py lines 11-33) -/

/-- The reserved keys stripped by the v2 signer. -/
def reservedKeys : List String := ["sign", "sign_type"]

/-- The filter condition `v and k not in ['sign', 'sign_type']` of the v2
signer. -/
def signKeep (kv : String × PyVal) : Bool :=
  pyTruthy kv.2 && !(reservedKeys.contains kv.1)

/-- The dict comprehension
`{k: v for k, v in params.items() if v and k not in ['sign', 'sign_type']}`. -/
def signFilter (params : List (String × PyVal)) : List (String × PyVal) :=
  params.filter signKeep

/-- Dict indexing `filtered[k]` (keys of a Python dict are unique, so the
first match is the entry). -/
def lookupVal (l : List (String × PyVal)) (k : String) : PyVal :=
  ((l.find? (fun kv => kv.1 == k)).map Prod.snd).getD (.str "")

/-- The canonical string of the v2 signer: filter, sort the keys
(Python sorts strings by code point, matching `String`'s order), join
`k=v` with `&`. -/
def canonicalV2 (params : List (String × PyVal)) : String :=
  let filtered := signFilter params
  let sorted_keys := List.insertionSort strLe (filtered.map Prod.fst)
  String.intercalate "&" (sorted_keys.map (fun k => k ++ "=" ++ pyStr (lookupVal filtered k)))

/-- `generate_sign` of generate_payment_url_v2.py (and test_payment.py):
MD5 of the canonical string with the merchant key appended. -/
def generate_sign_v2 (params : List (String × PyVal)) (key : String) : String :=
  md5 (canonicalV2 params ++ key)

/-- Injection of a string-valued dict into the value model (the builders
only ever pass string values to the signer). -/
def wrapStr (l : List (String × String)) : List (String × PyVal) :=
  l.map (fun kv => (kv.1, PyVal.str kv.2))

/-! ## Concrete scenario data (spec section 8) -/

/-- The parameter dict of the spec's concrete scenario, in source order. -/
def c1Params : List (String × String) :=
  [("pid", "1001003549245339"), ("type", "alipay"), ("out_trade_no", "TEST1700000000"),
   ("notify_url", "http://example.com/notify"), ("return_url", "http://example.com/return"),
   ("name", "测试商品"), ("money", "0.01")]

/-- The merchant secret of the spec's concrete scenario. -/
def c1Key : String := "cd5dcdcbef4da67b9f3a01b1e391ab86"

/-- The canonical signing base string the spec expects for the scenario. -/
def c1Base : String :=
  "money=0.01&name=测试商品&notify_url=http://example.com/notify&out_trade_no=TEST1700000000&pid=1001003549245339&return_url=http://example.com/return&type=alipay"

/-! ## Percent-encoding (urllib.parse.quote_plus / urlencode) -/

/-- Bytes never quoted by urllib.parse: ASCII letters, digits and
underscore, dot, dash, tilde. -/
def alwaysSafeByte (b : Nat) : Bool :=
  (48 ≤ b && b ≤ 57) || (65 ≤ b && b ≤ 90) || (97 ≤ b && b ≤ 122) ||
    b == 45 || b == 46 || b == 95 || b == 126

/-- Uppercase hex digit of a nibble, as used by percent-escapes. -/
def hexUpper (n : Nat) : Char := "0123456789ABCDEF".data.getD n '0'

/-- quote_plus on a single byte: safe bytes stay themselves, the space
byte becomes '+', every other byte becomes a percent-escape. -/
def encByte (b : Nat) : List Char :=
  if alwaysSafeByte b then [Char.ofNat b]
  else if b == 32 then ['+']
  else ['%', hexUpper (b / 16), hexUpper (b % 16)]

/-- urllib.parse.quote_plus with the default empty safe set, as called by
urlencode: percent-encode the UTF-8 bytes. -/
def quote_plus (s : String) : String :=
  String.mk (((utf8Encode s.toList).map encByte).flatten)

/-- Join strings with `&` (Python `'&'.join`). -/
def joinAmp : List String → String
  | [] => ""
  | [s] => s
  | s :: rest => s ++ "&" ++ joinAmp rest

/-- urllib.parse.urlencode on a string-valued parameter dict (insertion
order is preserved, every key and value is quoted). -/
def urlencode (params : List (String × String)) : String :=
  joinAmp (params.map (fun kv => quote_plus kv.1 ++ "=" ++ quote_plus kv.2))

/-! ## PaymentURLBuilder v2 (generate_payment_url_v2.py lines 47-80) -/

/-- The request parameter dict assembled by `generate_payment_url` (v2)
before signing: fixed keys with per-key defaults for omitted kwargs, the
`sign_type` marker, and `sitename` appended when supplied and truthy.
`now` stands for `int(time.time())`; `money` is passed through `str()`. -/
def v2BaseParams (pid : String) (ptype out_trade_no notify_url return_url pname : Option String)
    (money : Option PyVal) (sitename : Option String) (now : Nat) :
    List (String × String) :=
  let params : List (String × String) :=
    [("pid", pid),
     ("type", ptype.getD "alipay"),
     ("out_trade_no", out_trade_no.getD ("TEST" ++ toString now)),
     ("notify_url", notify_url.getD "http://example.com/notify"),
     ("return_url", return_url.getD "http://example.com/return"),
     ("name", pname.getD "测试商品"),
     ("money", pyStr (money.getD (PyVal.str "0.01"))),
     ("sign_type", "MD5")]
  match sitename with
  | Option.some s => if s != "" then params ++ [("sitename", s)] else params
  | Option.none => params

/-- `generate_payment_url` of generate_payment_url_v2.py: assemble the
params, sign them, append the signature under `sign`, and return the
`{base_url}/submit?{query_string}` URL together with the params. -/
def generate_payment_url_v2 (base_url pid merchant_key : String)
    (ptype out_trade_no notify_url return_url pname : Option String)
    (money : Option PyVal) (sitename : Option String) (now : Nat) :
    String × List (String × String) :=
  let params := v2BaseParams pid ptype out_trade_no notify_url return_url pname money sitename now
  let sign := generate_sign_v2 (wrapStr params) merchant_key
  let params := params ++ [("sign", sign)]
  (base_url ++ "/submit?" ++ urlencode params, params)

/-! ## The v1 script constants and builder (generate_payment_url.py) -/

/-- Hard-coded merchant id of the v1 script. -/
def PID_v1 : String := "1001003549245339"

/-- Hard-coded merchant key of the v1 script. -/
def KEY_v1 : String := "cd5dcdcbef4da67b9f3a01b1e391ab86"

/-- Hard-coded base URL of the v1 script (already includes `/submit`). -/
def BASE_URL_v1 : String := "http://localhost:8080/submit"

/-- The order parameter dict of the v1 builder. -/
def v1BaseParams (amount product_name : String) (now : Nat) : List (String × String) :=
  [("pid", PID_v1), ("type", "alipay"), ("out_trade_no", "TEST" ++ toString now),
   ("notify_url", "http://example.com/notify"), ("return_url", "http://example.com/return"),
   ("name", product_name), ("money", amount)]

/-- `generate_payment_url` of generate_payment_url.py: sign the order
params, append `sign` and `sign_type`, return `{BASE_URL}?{query}` and the
params. -/
def generate_payment_url_v1 (amount product_name : String) (now : Nat) :
    String × List (String × String) :=
  let params := v1BaseParams amount product_name now
  let sign := generate_sign_v1 params KEY_v1
  let params := params ++ [("sign", sign), ("sign_type", "MD5")]
  (BASE_URL_v1 ++ "?" ++ urlencode params, params)

/-- First value under a key in a parameter list (dict lookup; keys are
unique in every dict these scripts build). -/
def lookupParam (l : List (String × String)) (k : String) : Option String :=
  (l.find? (fun kv => kv.1 == k)).map Prod.snd

/-! ## Gateway-side query re-parsing

Modelled from the spec: the gateway dereferencing the URL re-parses the
query string into key/value pairs, URL-decodes each, strips the reserved
keys and empty values, and re-runs the signing procedure. The gateway
itself is outside this repository; these definitions follow the spec's
round-trip description. -/

/-- Numeric value of a hex character (either case). -/
def hexCharVal (c : Char) : Nat :=
  if 97 ≤ c.toNat then c.toNat - 87
  else if 65 ≤ c.toNat then c.toNat - 55
  else c.toNat - 48

/-- Percent-decoding of form-urlencoded text into bytes: '+' is the space
byte, a '%' starts a two-digit escape, any other character stands for its
own code point. -/
def pctDecode : List Char → List Nat
  | [] => []
  | c :: rest =>
    if c = '+' then 32 :: pctDecode rest
    else if c = '%' then
      (16 * hexCharVal (rest.getD 0 '0') + hexCharVal (rest.getD 1 '0')) ::
        pctDecode (rest.drop 2)
    else c.toNat :: pctDecode rest
termination_by l => l.length
decreasing_by
  · simp
  · simp only [List.length_drop, List.length_cons]
    omega
  · simp

/-- UTF-8 decoding of a byte list back into characters (the lead byte
selects the sequence length; continuation bytes are consumed with it). -/
def utf8Decode : List Nat → List Char
  | [] => []
  | b :: rest =>
    if b < 128 then Char.ofNat b :: utf8Decode rest
    else if b < 224 then
      Char.ofNat ((b - 192) * 64 + (rest.getD 0 0 - 128)) :: utf8Decode (rest.drop 1)
    else if b < 240 then
      Char.ofNat ((b - 224) * 4096 + (rest.getD 0 0 - 128) * 64 +
        (rest.getD 1 0 - 128)) :: utf8Decode (rest.drop 2)
    else
      Char.ofNat ((b - 240) * 262144 + (rest.getD 0 0 - 128) * 4096 +
        (rest.getD 1 0 - 128) * 64 + (rest.getD 2 0 - 128)) :: utf8Decode (rest.drop 3)
termination_by l => l.length
decreasing_by
  all_goals
    simp only [List.length_drop, List.length_cons]
    omega

/-- URL-decoding of one query component (unquote_plus). -/
def unquote_plus (s : String) : String := String.mk (utf8Decode (pctDecode s.data))

/-- Split a character list at every occurrence of a separator. -/
def splitOnChar (sep : Char) : List Char → List (List Char)
  | [] => [[]]
  | c :: rest =>
    if c = sep then [] :: splitOnChar sep rest
    else
      match splitOnChar sep rest with
      | [] => [[c]]
      | piece :: pieces => (c :: piece) :: pieces

/-- Split a `k=v` piece at the first '='. -/
def splitPair : List Char → List Char × List Char
  | [] => ([], [])
  | c :: rest =>
    if c = '=' then ([], rest)
    else
      let kv := splitPair rest
      (c :: kv.1, kv.2)

/-- Re-parse a query string into URL-decoded key/value pairs. -/
def parseQuery (s : String) : List (String × String) :=
  (splitOnChar '&' s.data).map (fun piece =>
    (unquote_plus (String.mk (splitPair piece).1),
     unquote_plus (String.mk (splitPair piece).2)))

/-- The query part of a URL: everything after the first '?'. -/
def extractQuery (url : String) : String :=
  String.mk ((url.data.dropWhile (fun c => c ≠ '?')).drop 1)

/-- Strip the reserved `sign` / `sign_type` entries from re-parsed pairs. -/
def stripReserved (l : List (String × String)) : List (String × String) :=
  l.filter (fun kv => !(reservedKeys.contains kv.1))

/-- Strip empty-valued entries from re-parsed pairs. -/
def stripEmpty (l : List (String × String)) : List (String × String) :=
  l.filter (fun kv => kv.2 != "")

/-! ## DeepLinkTestHarness (test_alipay_deeplink.py) -/

/-- An HTTP GET issued by the harness: endpoint path, query params, and
whether redirects are followed (requests.get follows them by default;
test 6 passes allow_redirects=False so the 3xx Location is observable). -/
structure HttpRequest where
  path : String
  query : List (String × String)
  allowRedirects : Bool
deriving DecidableEq

/-- Hard-coded QR-code id of the test script. -/
def QR_CODE_ID : String := "fkx12345678901234"

/-- `str(AMOUNT)` for the constant `AMOUNT = 1.23`, as urlencode serializes
it into the queries. -/
def AMOUNT_str : String := "1.23"

/-- Hard-coded remark of the test script. -/
def REMARK : String := "测试订单"

/-- The six requests of test 1 through test 6, in execution order. -/
def harnessRequests : List HttpRequest :=
  [⟨"/alipay/link", [("amount", AMOUNT_str), ("remark", REMARK)], true⟩,
   ⟨"/alipay/link", [("qr_code_id", QR_CODE_ID), ("amount", AMOUNT_str),
     ("remark", REMARK)], true⟩,
   ⟨"/alipay/link", [("qr_code_id", QR_CODE_ID)], true⟩,
   ⟨"/alipay/link", [("amount", AMOUNT_str)], true⟩,
   ⟨"/alipay/link", [("qr_code_id", QR_CODE_ID), ("amount", "invalid")], true⟩,
   ⟨"/alipay/pay", [("qr_code_id", QR_CODE_ID), ("amount", AMOUNT_str),
     ("remark", REMARK)], false⟩]

/-- Issue requests in order inside main's single try/except block: a
request whose GET raises ConnectionError (`net r = false`) is the last one
issued, and the run ends in the except branch (`true` flag); otherwise the
next scenario runs. -/
def runRequests (net : HttpRequest → Bool) : List HttpRequest → List HttpRequest × Bool
  | [] => ([], false)
  | r :: rs =>
    if net r then
      let res := runRequests net rs
      (r :: res.1, res.2)
    else ([r], true)

/-- A full run of main under a network oracle: which requests were issued
and whether the run was cut short by a connection error. -/
def runHarness (net : HttpRequest → Bool) : List HttpRequest × Bool :=
  runRequests net harnessRequests

/-! ## Sanity checks of the hash embedding (RFC 1321 test vectors) -/

/-- RFC 1321 test vector: digest of the empty message. -/
theorem md5_empty : md5 "" = "d41d8cd98f00b204e9800998ecf8427e" := by decide

/-- RFC 1321 test vector: digest of "abc". -/
theorem md5_abc : md5 "abc" = "900150983cd24fb0d6963f7d28e17f72" := by decide

/-! ## Generic facts about the digest rendering -/

/-- The MD5 digest always consists of 16 bytes. -/
theorem md5digest_length (msg : List Nat) : (md5digest msg).length = 16 := by
  unfold md5digest le4
  simp

/-- Every hex digit produced by `hexDigit` is in the lowercase alphabet. -/
theorem hexDigit_mem (n : Nat) : hexChars.contains (hexDigit n) = true := by
  unfold hexDigit
  by_cases h : n < 16
  · interval_cases n <;> decide
  · rw [List.getD_eq_default]
    · decide
    · have hl : hexChars.length = 16 := rfl
      omega

/-- Flattening the two-character byte renderings doubles the length. -/
theorem flatten_byteHex_length (l : List Nat) :
    ((l.map byteHex).flatten).length = 2 * l.length := by
  induction l with
  | nil => rfl
  | cons b bs ih =>
    simp only [List.map_cons, List.flatten_cons, List.length_append, ih,
      byteHex, List.length_cons, List.length_nil, List.length_cons]
    omega

/-- The hex rendering of the digest has exactly 32 characters. -/
theorem md5hex_length (msg : List Nat) : (md5hex msg).length = 32 := by
  show (((md5digest msg).map byteHex).flatten).length = 32
  rw [flatten_byteHex_length, md5digest_length]

/-- Every character of the hex rendering is a lowercase hex digit. -/
theorem isLowerHex_md5hex (msg : List Nat) : isLowerHex (md5hex msg) = true := by
  show (((md5digest msg).map byteHex).flatten).all _ = true
  rw [List.all_eq_true]
  intro c hc
  rw [List.mem_flatten] at hc
  obtain ⟨l, hl, hcl⟩ := hc
  rw [List.mem_map] at hl
  obtain ⟨b, _, rfl⟩ := hl
  simp only [byteHex, List.mem_cons, List.not_mem_nil, or_false] at hcl
  rcases hcl with rfl | rfl
  · exact hexDigit_mem _
  · exact hexDigit_mem _

/-! ## Character and byte level round-trip lemmas -/

/-- toNat of `Char.ofNat` below the surrogate range. -/
theorem toNat_charOfNat (n : Nat) (h : n < 55296) : (Char.ofNat n).toNat = n := by
  have hv : n.isValidChar := Or.inl h
  unfold Char.ofNat
  rw [dif_pos hv]
  rfl

/-- `Char.ofNat` inverts `Char.toNat`. -/
theorem charOfNat_toNat (c : Char) : Char.ofNat c.toNat = c := by
  have hv : c.toNat.isValidChar := c.valid
  unfold Char.ofNat
  rw [dif_pos hv]
  rfl

/-- Unicode scalar values are below 0x110000. -/
theorem char_toNat_lt (c : Char) : c.toNat < 1114112 := by
  have h := c.valid
  unfold Char.toNat
  rcases h with h | ⟨_, h⟩ <;> omega

/-- Arithmetic consequences of a byte being in the always-safe set. -/
theorem alwaysSafe_props (b : Nat) (h : alwaysSafeByte b = true) :
    b < 128 ∧ b ≠ 37 ∧ b ≠ 43 ∧ b ≠ 38 ∧ b ≠ 61 ∧ b ≠ 32 := by
  simp only [alwaysSafeByte, Bool.or_eq_true, Bool.and_eq_true, decide_eq_true_eq,
    beq_iff_eq] at h
  omega

/-- Decoding an uppercase hex digit recovers the nibble. -/
theorem hexCharVal_hexUpper (n : Nat) (h : n < 16) : hexCharVal (hexUpper n) = n := by
  interval_cases n <;> decide

/-- One unfolding of the percent decoder at a '+'. -/
theorem pctDecode_plus (r : List Char) : pctDecode ('+' :: r) = 32 :: pctDecode r := by
  rw [pctDecode]
  simp

/-- One unfolding of the percent decoder at an escape. -/
theorem pctDecode_pct (h1 h2 : Char) (r : List Char) :
    pctDecode ('%' :: h1 :: h2 :: r) =
      (16 * hexCharVal h1 + hexCharVal h2) :: pctDecode r := by
  rw [pctDecode]
  simp

/-- One unfolding of the percent decoder at a literal character. -/
theorem pctDecode_other (c : Char) (r : List Char) (hp : c ≠ '+') (hq : c ≠ '%') :
    pctDecode (c :: r) = c.toNat :: pctDecode r := by
  rw [pctDecode]
  rw [if_neg hp, if_neg hq]

/-- Percent-decoding inverts the byte encoder of quote_plus. -/
theorem pctDecode_encByte (b : Nat) (hb : b < 256) (cs : List Char) :
    pctDecode (encByte b ++ cs) = b :: pctDecode cs := by
  unfold encByte
  by_cases hs : alwaysSafeByte b = true
  · rw [if_pos hs]
    obtain ⟨h128, h37, h43, _, _, _⟩ := alwaysSafe_props b hs
    show pctDecode (Char.ofNat b :: cs) = b :: pctDecode cs
    have hplus : ¬(Char.ofNat b = '+') := by
      intro hEq
      have h2 := congrArg Char.toNat hEq
      rw [toNat_charOfNat b (by omega)] at h2
      exact h43 h2
    have hpct : ¬(Char.ofNat b = '%') := by
      intro hEq
      have h2 := congrArg Char.toNat hEq
      rw [toNat_charOfNat b (by omega)] at h2
      exact h37 h2
    rw [pctDecode_other _ _ hplus hpct, toNat_charOfNat b (by omega)]
  · rw [if_neg hs]
    by_cases h32 : b == 32
    · rw [if_pos h32]
      have hb32 : b = 32 := by simpa using h32
      subst hb32
      show pctDecode ('+' :: cs) = 32 :: pctDecode cs
      exact pctDecode_plus cs
    · rw [if_neg h32]
      show pctDecode ('%' :: hexUpper (b / 16) :: hexUpper (b % 16) :: cs) =
        b :: pctDecode cs
      rw [pctDecode_pct]
      rw [hexCharVal_hexUpper _ (by omega), hexCharVal_hexUpper _ (by omega)]
      congr 1
      omega

/-- One unfolding of the UTF-8 decoder at a one-byte sequence. -/
theorem utf8Decode_one (b : Nat) (rest : List Nat) (h : b < 128) :
    utf8Decode (b :: rest) = Char.ofNat b :: utf8Decode rest := by
  rw [utf8Decode, if_pos h]

/-- One unfolding of the UTF-8 decoder at a two-byte sequence. -/
theorem utf8Decode_two (b b2 : Nat) (rest : List Nat) (h1 : ¬b < 128) (h2 : b < 224) :
    utf8Decode (b :: b2 :: rest) =
      Char.ofNat ((b - 192) * 64 + (b2 - 128)) :: utf8Decode rest := by
  rw [utf8Decode, if_neg h1, if_pos h2]
  simp

/-- One unfolding of the UTF-8 decoder at a three-byte sequence. -/
theorem utf8Decode_three (b b2 b3 : Nat) (rest : List Nat) (h1 : ¬b < 128)
    (h2 : ¬b < 224) (h3 : b < 240) :
    utf8Decode (b :: b2 :: b3 :: rest) =
      Char.ofNat ((b - 224) * 4096 + (b2 - 128) * 64 + (b3 - 128)) ::
        utf8Decode rest := by
  rw [utf8Decode, if_neg h1, if_neg h2, if_pos h3]
  simp

/-- One unfolding of the UTF-8 decoder at a four-byte sequence. -/
theorem utf8Decode_four (b b2 b3 b4 : Nat) (rest : List Nat) (h1 : ¬b < 128)
    (h2 : ¬b < 224) (h3 : ¬b < 240) :
    utf8Decode (b :: b2 :: b3 :: b4 :: rest) =
      Char.ofNat ((b - 240) * 262144 + (b2 - 128) * 4096 + (b3 - 128) * 64 +
        (b4 - 128)) :: utf8Decode rest := by
  rw [utf8Decode, if_neg h1, if_neg h2, if_neg h3]
  simp

/-- UTF-8 decoding inverts the per-character encoder. -/
theorem utf8Decode_utf8Char (c : Char) (bs : List Nat) :
    utf8Decode (utf8Char c ++ bs) = c :: utf8Decode bs := by
  have hlt : c.toNat < 1114112 := char_toNat_lt c
  unfold utf8Char
  by_cases h1 : c.toNat < 128
  · rw [if_pos h1]
    show utf8Decode (c.toNat :: bs) = c :: utf8Decode bs
    rw [utf8Decode_one _ _ h1, charOfNat_toNat]
  · rw [if_neg h1]
    by_cases h2 : c.toNat < 2048
    · rw [if_pos h2]
      show utf8Decode ((192 + c.toNat / 64) :: (128 + c.toNat % 64) :: bs) =
        c :: utf8Decode bs
      rw [utf8Decode_two _ _ _ (by omega) (by omega)]
      have harith : (192 + c.toNat / 64 - 192) * 64 + (128 + c.toNat % 64 - 128) =
          c.toNat := by omega
      rw [harith, charOfNat_toNat]
    · rw [if_neg h2]
      by_cases h3 : c.toNat < 65536
      · rw [if_pos h3]
        show utf8Decode ((224 + c.toNat / 4096) :: (128 + c.toNat / 64 % 64) ::
            (128 + c.toNat % 64) :: bs) = c :: utf8Decode bs
        rw [utf8Decode_three _ _ _ _ (by omega) (by omega) (by omega)]
        have harith : (224 + c.toNat / 4096 - 224) * 4096 +
            (128 + c.toNat / 64 % 64 - 128) * 64 + (128 + c.toNat % 64 - 128) =
            c.toNat := by omega
        rw [harith, charOfNat_toNat]
      · rw [if_neg h3]
        show utf8Decode ((240 + c.toNat / 262144) :: (128 + c.toNat / 4096 % 64) ::
            (128 + c.toNat / 64 % 64) :: (128 + c.toNat % 64) :: bs) =
          c :: utf8Decode bs
        rw [utf8Decode_four _ _ _ _ _ (by omega) (by omega) (by omega)]
        have harith : (240 + c.toNat / 262144 - 240) * 262144 +
            (128 + c.toNat / 4096 % 64 - 128) * 4096 +
            (128 + c.toNat / 64 % 64 - 128) * 64 + (128 + c.toNat % 64 - 128) =
            c.toNat := by omega
        rw [harith, charOfNat_toNat]

/-- UTF-8 encodings consist of bytes. -/
theorem utf8Char_lt (c : Char) : ∀ b ∈ utf8Char c, b < 256 := by
  have hlt : c.toNat < 1114112 := char_toNat_lt c
  unfold utf8Char
  by_cases h1 : c.toNat < 128
  · rw [if_pos h1]
    intro b hb
    simp only [List.mem_cons, List.not_mem_nil, or_false] at hb
    omega
  · rw [if_neg h1]
    by_cases h2 : c.toNat < 2048
    · rw [if_pos h2]
      intro b hb
      simp only [List.mem_cons, List.not_mem_nil, or_false] at hb
      rcases hb with rfl | rfl <;> omega
    · rw [if_neg h2]
      by_cases h3 : c.toNat < 65536
      · rw [if_pos h3]
        intro b hb
        simp only [List.mem_cons, List.not_mem_nil, or_false] at hb
        rcases hb with rfl | rfl | rfl <;> omega
      · rw [if_neg h3]
        intro b hb
        simp only [List.mem_cons, List.not_mem_nil, or_false] at hb
        rcases hb with rfl | rfl | rfl | rfl <;> omega

/-- Bytes of a full UTF-8 encoding are below 256. -/
theorem utf8Encode_lt (cs : List Char) : ∀ b ∈ utf8Encode cs, b < 256 := by
  intro b hb
  unfold utf8Encode at hb
  rw [List.mem_flatten] at hb
  obtain ⟨l, hl, hbl⟩ := hb
  rw [List.mem_map] at hl
  obtain ⟨c, _, rfl⟩ := hl
  exact utf8Char_lt c b hbl

/-- Percent-decoding inverts quote_plus byte for byte. -/
theorem pctDecode_flatten (bs : List Nat) (h : ∀ b ∈ bs, b < 256) :
    pctDecode ((bs.map encByte).flatten) = bs := by
  induction bs with
  | nil =>
    show pctDecode [] = []
    rw [pctDecode]
  | cons b rest ih =>
    simp only [List.map_cons, List.flatten_cons]
    rw [pctDecode_encByte b (h b (by simp)) _, ih (fun x hx => h x (by simp [hx]))]

/-- UTF-8 decoding inverts UTF-8 encoding. -/
theorem utf8Decode_encode (cs : List Char) : utf8Decode (utf8Encode cs) = cs := by
  induction cs with
  | nil =>
    show utf8Decode [] = []
    rw [utf8Decode]
  | cons c rest ih =>
    show utf8Decode ((utf8Char c :: rest.map utf8Char).flatten) = c :: rest
    rw [List.flatten_cons]
    rw [utf8Decode_utf8Char]
    exact congrArg (c :: ·) ih

/-- unquote_plus inverts quote_plus. -/
theorem unquote_quote (s : String) : unquote_plus (quote_plus s) = s := by
  show String.mk (utf8Decode (pctDecode (((utf8Encode s.data).map encByte).flatten))) = s
  rw [pctDecode_flatten _ (utf8Encode_lt _), utf8Decode_encode]

/-! ## Query-string structure lemmas -/

/-- Hex digits are neither '&' nor '='. -/
theorem hexUpper_ne (n : Nat) : hexUpper n ≠ '&' ∧ hexUpper n ≠ '=' := by
  unfold hexUpper
  by_cases h : n < 16
  · interval_cases n <;> exact ⟨by decide, by decide⟩
  · rw [List.getD_eq_default]
    · exact ⟨by decide, by decide⟩
    · have hl : ("0123456789ABCDEF".data).length = 16 := rfl
      omega

/-- quote_plus never produces the separator characters '&' or '='. -/
theorem encByte_ne_sep (b : Nat) (hb : b < 256) :
    ∀ c ∈ encByte b, c ≠ '&' ∧ c ≠ '=' := by
  unfold encByte
  by_cases hs : alwaysSafeByte b = true
  · rw [if_pos hs]
    obtain ⟨h128, _, _, h38, h61, _⟩ := alwaysSafe_props b hs
    intro c hc
    simp only [List.mem_cons, List.not_mem_nil, or_false] at hc
    subst hc
    constructor <;> intro hEq <;> have h2 := congrArg Char.toNat hEq <;>
      rw [toNat_charOfNat b (by omega)] at h2
    · exact h38 h2
    · exact h61 h2
  · rw [if_neg hs]
    by_cases h32 : b == 32
    · rw [if_pos h32]
      intro c hc
      simp only [List.mem_cons, List.not_mem_nil, or_false] at hc
      subst hc
      exact ⟨by decide, by decide⟩
    · rw [if_neg h32]
      intro c hc
      simp only [List.mem_cons, List.not_mem_nil, or_false] at hc
      rcases hc with rfl | rfl | rfl
      · exact ⟨by decide, by decide⟩
      · exact hexUpper_ne _
      · exact hexUpper_ne _

/-- Characters of a quoted component are never '&' or '='. -/
theorem quote_plus_ne_sep (s : String) :
    ∀ c ∈ (quote_plus s).data, c ≠ '&' ∧ c ≠ '=' := by
  intro c hc
  have hc' : c ∈ (((utf8Encode s.toList).map encByte).flatten) := hc
  rw [List.mem_flatten] at hc'
  obtain ⟨l, hl, hcl⟩ := hc'
  rw [List.mem_map] at hl
  obtain ⟨b, hb, rfl⟩ := hl
  exact encByte_ne_sep b (utf8Encode_lt _ b hb) c hcl

/-- Splitting a separator-free list yields a single piece. -/
theorem splitOnChar_no_sep (sep : Char) (p : List Char) (h : sep ∉ p) :
    splitOnChar sep p = [p] := by
  induction p with
  | nil => rw [splitOnChar]
  | cons c rest ih =>
    rw [splitOnChar]
    rw [if_neg (fun hEq => h (by rw [hEq]; exact List.mem_cons_self _ _))]
    rw [ih (fun hm => h (List.mem_cons_of_mem _ hm))]

/-- Splitting after a separator-free prefix peels off that prefix. -/
theorem splitOnChar_append (sep : Char) (p cs : List Char) (h : sep ∉ p) :
    splitOnChar sep (p ++ sep :: cs) = p :: splitOnChar sep cs := by
  induction p with
  | nil =>
    show splitOnChar sep (sep :: cs) = [] :: splitOnChar sep cs
    rw [splitOnChar, if_pos rfl]
  | cons c rest ih =>
    show splitOnChar sep (c :: (rest ++ sep :: cs)) = (c :: rest) :: splitOnChar sep cs
    rw [splitOnChar]
    rw [if_neg (fun hEq => h (by rw [hEq]; exact List.mem_cons_self _ _))]
    rw [ih (fun hm => h (List.mem_cons_of_mem _ hm))]

/-- Splitting a `k=v` piece at the first '=' recovers key and value. -/
theorem splitPair_append (k v : List Char) (h : '=' ∉ k) :
    splitPair (k ++ '=' :: v) = (k, v) := by
  induction k with
  | nil =>
    show splitPair ('=' :: v) = ([], v)
    rw [splitPair, if_pos rfl]
  | cons c rest ih =>
    show splitPair (c :: (rest ++ '=' :: v)) = (c :: rest, v)
    rw [splitPair]
    rw [if_neg (fun hEq => h (by rw [hEq]; exact List.mem_cons_self _ _))]
    rw [ih (fun hm => h (List.mem_cons_of_mem _ hm))]

/-- Character data of an `&`-join with at least two components. -/
theorem joinAmp_data_cons (s t : String) (ts : List String) :
    (joinAmp (s :: t :: ts)).data = s.data ++ '&' :: (joinAmp (t :: ts)).data := by
  rw [joinAmp]
  · rw [String.data_append, String.data_append, List.append_assoc]
    have hamp : "&".data = ['&'] := rfl
    rw [hamp]
    rfl
  · intro hEq
    cases hEq

/-- Splitting an `&`-join of `&`-free components recovers the components. -/
theorem splitOnChar_joinAmp (ps : List String) (hne : ps ≠ [])
    (h : ∀ p ∈ ps, '&' ∉ p.data) :
    splitOnChar '&' (joinAmp ps).data = ps.map String.data := by
  induction ps with
  | nil => cases hne rfl
  | cons p rest ih =>
    cases rest with
    | nil =>
      show splitOnChar '&' (joinAmp [p]).data = [p.data]
      exact splitOnChar_no_sep '&' p.data (h p (List.mem_cons_self _ _))
    | cons q qs =>
      rw [joinAmp_data_cons p q qs]
      rw [splitOnChar_append '&' p.data _ (h p (List.mem_cons_self _ _))]
      rw [ih (by simp) (fun x hx => h x (List.mem_cons_of_mem _ hx))]
      rfl

/-- Mapping a function that fixes every element is the identity. -/
theorem map_id_of_mem {α : Type} (l : List α) (f : α → α) (h : ∀ x ∈ l, f x = x) :
    l.map f = l := by
  induction l with
  | nil => rfl
  | cons a rest ih =>
    rw [List.map_cons, h a (List.mem_cons_self _ _),
      ih (fun x hx => h x (List.mem_cons_of_mem _ hx))]

/-- Re-parsing an url-encoded dict recovers the dict. -/
theorem parseQuery_urlencode (params : List (String × String)) (hne : params ≠ []) :
    parseQuery (urlencode params) = params := by
  unfold parseQuery urlencode
  rw [splitOnChar_joinAmp _ (by simpa using hne) ?hamp]
  case hamp =>
    intro p hp
    rw [List.mem_map] at hp
    obtain ⟨kv, _, rfl⟩ := hp
    intro hmem
    rw [String.data_append, String.data_append] at hmem
    rcases List.mem_append.mp hmem with hmem | hmem
    · rcases List.mem_append.mp hmem with hmem | hmem
      · exact (quote_plus_ne_sep kv.1 '&' hmem).1 rfl
      · have : ('&' : Char) = '=' := by
          have h1 : "=".data = ['='] := rfl
          rw [h1] at hmem
          simpa using hmem
        cases this
    · exact (quote_plus_ne_sep kv.2 '&' hmem).1 rfl
  rw [List.map_map, List.map_map]
  apply map_id_of_mem
  intro kv _
  show (unquote_plus (String.mk (splitPair
      ((quote_plus kv.1 ++ "=" ++ quote_plus kv.2).data)).1),
    unquote_plus (String.mk (splitPair
      ((quote_plus kv.1 ++ "=" ++ quote_plus kv.2).data)).2)) = kv
  have hdata : (quote_plus kv.1 ++ "=" ++ quote_plus kv.2).data =
      (quote_plus kv.1).data ++ '=' :: (quote_plus kv.2).data := by
    rw [String.data_append, String.data_append, List.append_assoc]
    have heq : "=".data = ['='] := rfl
    rw [heq]
    rfl
  rw [hdata, splitPair_append _ _ (fun hm => (quote_plus_ne_sep kv.1 '=' hm).2 rfl)]
  show (unquote_plus (quote_plus kv.1), unquote_plus (quote_plus kv.2)) = kv
  rw [unquote_quote, unquote_quote]

/-- Leading characters that all fail to be the separator are dropped. -/
theorem dropWhile_all_append (p : Char → Bool) (l1 l2 : List Char)
    (h : ∀ x ∈ l1, p x = true) :
    List.dropWhile p (l1 ++ l2) = List.dropWhile p l2 := by
  induction l1 with
  | nil => rfl
  | cons c rest ih =>
    rw [List.cons_append, List.dropWhile_cons_of_pos (h c (List.mem_cons_self _ _))]
    exact ih (fun x hx => h x (List.mem_cons_of_mem _ hx))

/-- The query part of a built URL is the encoded query string, provided the
base URL itself contains no '?'. -/
theorem extractQuery_submit (b qs : String) (h : '?' ∉ b.data) :
    extractQuery (b ++ "/submit?" ++ qs) = qs := by
  unfold extractQuery
  rw [String.data_append, String.data_append, List.append_assoc]
  have h1 : ∀ x ∈ b.data, (fun c => decide (c ≠ '?')) x = true := by
    intro x hx
    simp only [decide_eq_true_eq]
    intro hEq
    exact h (hEq ▸ hx)
  rw [dropWhile_all_append _ _ _ h1]
  have hlit : "/submit?".data = ['/', 's', 'u', 'b', 'm', 'i', 't', '?'] := rfl
  rw [hlit]
  simp only [List.cons_append, List.nil_append]
  rw [List.dropWhile_cons_of_pos (by decide), List.dropWhile_cons_of_pos (by decide),
    List.dropWhile_cons_of_pos (by decide), List.dropWhile_cons_of_pos (by decide),
    List.dropWhile_cons_of_pos (by decide), List.dropWhile_cons_of_pos (by decide),
    List.dropWhile_cons_of_pos (by decide), List.dropWhile_cons_of_neg (by decide)]
  rfl

/-! ## Invariance lemmas for the v2 signer -/

/-- Appending an entry that the v2 filter rejects leaves the filtered
dict unchanged. -/
theorem signFilter_append_drop (P : List (String × PyVal)) (k : String) (v : PyVal)
    (h : signKeep (k, v) = false) :
    signFilter (P ++ [(k, v)]) = signFilter P := by
  unfold signFilter
  rw [List.filter_append]
  simp [List.filter_cons, h]

/-- The v2 signature only depends on the filtered dict. -/
theorem generate_sign_v2_congr (P Q : List (String × PyVal)) (K : String)
    (h : signFilter P = signFilter Q) :
    generate_sign_v2 P K = generate_sign_v2 Q K := by
  unfold generate_sign_v2 canonicalV2
  rw [h]

/-- Stripping reserved keys and empty values before re-signing changes
nothing: the v2 filter already drops both. -/
theorem signFilter_wrap_strips (l : List (String × String)) :
    signFilter (wrapStr (stripEmpty (stripReserved l))) = signFilter (wrapStr l) := by
  unfold signFilter stripEmpty stripReserved wrapStr
  rw [List.filter_map, List.filter_map, List.filter_filter, List.filter_filter]
  apply congrArg
  apply List.filter_congr
  intro kv _
  cases h1 : kv.2 == "" <;> cases h2 : reservedKeys.contains kv.1 <;>
    simp [signKeep, pyTruthy, Function.comp, bne, h1, h2]
  exact List.mem_of_elem_eq_true h2

/-- Wrapping distributes over list append. -/
theorem wrapStr_append (l l' : List (String × String)) :
    wrapStr (l ++ l') = wrapStr l ++ wrapStr l' := by
  unfold wrapStr
  rw [List.map_append]

/-! ## Claim theorems -/

/-- C1: for the spec's concrete parameters and secret, both signers build
exactly the expected canonical base string followed by the key, and return
its MD5 hex digest — the fixed 32-character lowercase value
`6faf6a4eba5ce68e8aca701a94d12690` on every invocation. -/
theorem c1_concrete_scenario :
    canonicalV2 (wrapStr c1Params) = c1Base ∧
    generate_sign_v2 (wrapStr c1Params) c1Key = md5 (c1Base ++ c1Key) ∧
    generate_sign_v1 c1Params c1Key = md5 (c1Base ++ c1Key) ∧
    generate_sign_v2 (wrapStr c1Params) c1Key = "6faf6a4eba5ce68e8aca701a94d12690" ∧
    (generate_sign_v2 (wrapStr c1Params) c1Key).length = 32 ∧
    isLowerHex (generate_sign_v2 (wrapStr c1Params) c1Key) = true :=
  ⟨by decide, by decide, by decide, by decide, by decide, by decide⟩

/-- C2 (amended): adding a reserved-key entry before signing leaves the v2
signature unchanged (generate_payment_url_v2.py and test_payment.py); the
v1 `generate_sign` of generate_payment_url.py strips nothing, so the
invariance does not extend to it. -/
theorem c2_v2_reserved_key_invariance (P : List (String × PyVal)) (K k : String)
    (v : PyVal) (hk : k ∈ reservedKeys) (hfresh : k ∉ P.map Prod.fst) :
    generate_sign_v2 (P ++ [(k, v)]) K = generate_sign_v2 P K := by
  apply generate_sign_v2_congr
  apply signFilter_append_drop
  have hk' : k ∈ ["sign", "sign_type"] := hk
  cases hk' with
  | head => simp [signKeep, reservedKeys]
  | tail _ h2 =>
    cases h2 with
    | head => simp [signKeep, reservedKeys]
    | tail _ h3 => cases h3

/-- C2 witness: concrete instance of the reserved-key invariance. -/
theorem c2_v2_reserved_key_invariance_witness :
    generate_sign_v2 (wrapStr c1Params ++ [("sign", PyVal.str "abc")]) c1Key =
      generate_sign_v2 (wrapStr c1Params) c1Key :=
  c2_v2_reserved_key_invariance (wrapStr c1Params) c1Key "sign" (PyVal.str "abc")
    (by decide) (by decide)

/-- C2 counterexample: the claim fails for the v1 implementation — adding a
`sign` entry to the empty dict changes the v1 signature. -/
theorem c2_v1_counterexample :
    generate_sign_v1 ([] ++ [("sign", "x")]) "k" ≠ generate_sign_v1 [] "k" := by
  decide

/-- C3 (amended): adding an entry with an empty string value under a fresh
key before signing leaves the v2 signature unchanged; the v1
`generate_sign` keeps empty values, so the invariance does not extend to
it. -/
theorem c3_v2_empty_value_invariance (P : List (String × PyVal)) (K k : String)
    (hfresh : k ∉ P.map Prod.fst) :
    generate_sign_v2 (P ++ [(k, PyVal.str "")]) K = generate_sign_v2 P K := by
  apply generate_sign_v2_congr
  apply signFilter_append_drop
  simp [signKeep, pyTruthy]

/-- C3 witness: concrete instance of the empty-value invariance. -/
theorem c3_v2_empty_value_invariance_witness :
    generate_sign_v2 (wrapStr c1Params ++ [("sitename", PyVal.str "")]) c1Key =
      generate_sign_v2 (wrapStr c1Params) c1Key :=
  c3_v2_empty_value_invariance (wrapStr c1Params) c1Key "sitename" (by decide)

/-- C3 counterexample: the claim fails for the v1 implementation — adding an
entry with an empty value to the empty dict changes the v1 signature. -/
theorem c3_v1_counterexample :
    generate_sign_v1 ([] ++ [("a", "")]) "k" ≠ generate_sign_v1 [] "k" := by
  decide

/-- The single try/except around all six scenario calls stops the run at
the first failing request: the scenarios after it are never executed. -/
theorem runRequests_abort (net : HttpRequest → Bool) (xs ys : List HttpRequest)
    (r : HttpRequest) (hxs : ∀ x ∈ xs, net x = true) (hr : net r = false) :
    runRequests net (xs ++ r :: ys) = (xs ++ [r], true) := by
  induction xs with
  | nil =>
    show runRequests net (r :: ys) = ([r], true)
    rw [runRequests]
    simp [hr]
  | cons x rest ih =>
    show runRequests net (x :: (rest ++ r :: ys)) = (x :: (rest ++ [r]), true)
    rw [runRequests]
    simp [hxs x (List.mem_cons_self _ _),
      ih (fun y hy => hxs y (List.mem_cons_of_mem _ hy))]

/-- C8: evaluation at the failing input — with the gateway down (every
connection refused), the harness issues only the first request, records a
single connection-error outcome for the whole run, and never executes the
remaining five scenarios, contrary to the claim. -/
theorem c8_connection_error_aborts_run :
    (runHarness (fun _ => false)).1.length = 1 ∧
    (runHarness (fun _ => false)).2 = true ∧
    harnessRequests.length = 6 := by
  refine ⟨?_, ?_, rfl⟩ <;>
    rw [show runHarness (fun _ => false) =
      ([⟨"/alipay/link", [("amount", AMOUNT_str), ("remark", REMARK)], true⟩], true) from
      runRequests_abort _ [] _ _ (by intro x hx; cases hx) rfl] <;>
    rfl

/-- C9: a connection-error-free run issues exactly six GET requests, in
order, with exactly these endpoint/query pairs; redirects are followed for
the five `/alipay/link` scenarios and not followed for the final
`/alipay/pay` one. -/
theorem c9_six_requests :
    runHarness (fun _ => true) =
      ([⟨"/alipay/link", [("amount", "1.23"), ("remark", "测试订单")], true⟩,
        ⟨"/alipay/link", [("qr_code_id", "fkx12345678901234"), ("amount", "1.23"),
          ("remark", "测试订单")], true⟩,
        ⟨"/alipay/link", [("qr_code_id", "fkx12345678901234")], true⟩,
        ⟨"/alipay/link", [("amount", "1.23")], true⟩,
        ⟨"/alipay/link", [("qr_code_id", "fkx12345678901234"),
          ("amount", "invalid")], true⟩,
        ⟨"/alipay/pay", [("qr_code_id", "fkx12345678901234"), ("amount", "1.23"),
          ("remark", "测试订单")], false⟩], false) := by
  decide

/-- C10: the v2 filter drops every falsy value, so adding an entry with a
falsy value (0, False, None or the empty string) under a fresh key leaves
the v2 signature unchanged, exactly as if the key were absent. -/
theorem c10_v2_falsy_value_invariance (P : List (String × PyVal)) (K k : String)
    (v : PyVal) (hv : pyTruthy v = false) (hfresh : k ∉ P.map Prod.fst) :
    generate_sign_v2 (P ++ [(k, v)]) K = generate_sign_v2 P K := by
  apply generate_sign_v2_congr
  apply signFilter_append_drop
  simp [signKeep, hv]

/-- C10 witness: signing with `money2 = 0`, `flag = False` or `note = None`
added equals signing without the entry. -/
theorem c10_v2_falsy_value_invariance_witness :
    generate_sign_v2 (wrapStr c1Params ++ [("money2", PyVal.int 0)]) c1Key =
      generate_sign_v2 (wrapStr c1Params) c1Key ∧
    generate_sign_v2 (wrapStr c1Params ++ [("flag", PyVal.bool false)]) c1Key =
      generate_sign_v2 (wrapStr c1Params) c1Key ∧
    generate_sign_v2 (wrapStr c1Params ++ [("note", PyVal.none)]) c1Key =
      generate_sign_v2 (wrapStr c1Params) c1Key :=
  ⟨c10_v2_falsy_value_invariance (wrapStr c1Params) c1Key "money2" (PyVal.int 0)
      (by decide) (by decide),
   c10_v2_falsy_value_invariance (wrapStr c1Params) c1Key "flag" (PyVal.bool false)
      (by decide) (by decide),
   c10_v2_falsy_value_invariance (wrapStr c1Params) c1Key "note" PyVal.none
      (by decide) (by decide)⟩

/-- C4: for every canonical string and secret, the computed signature is
the MD5 digest of the UTF-8 bytes of the canonical string concatenated
directly with the secret (no separator), rendered as exactly 32 lowercase
hexadecimal characters; both signers compute their signature this way, and
the computation is a total function. -/
theorem c4_signature_is_md5_of_concat (s key : String) (P : List (String × PyVal))
    (Q : List (String × String)) :
    md5 (s ++ key) = md5hex (utf8Encode (s ++ key).toList) ∧
    (md5 (s ++ key)).length = 32 ∧
    isLowerHex (md5 (s ++ key)) = true ∧
    generate_sign_v2 P key = md5 (canonicalV2 P ++ key) ∧
    generate_sign_v1 Q key =
      md5 (String.intercalate "&"
        ((List.insertionSort pairLe Q).map (fun kv => kv.1 ++ "=" ++ kv.2)) ++ key) :=
  ⟨rfl, md5hex_length _, isLowerHex_md5hex _, rfl, rfl⟩

/-- C5: round trip — re-parsing the query string of the URL built by the
v2 builder into URL-decoded pairs, stripping the reserved keys and the
empty values, and re-running generate_sign with the same merchant secret
yields exactly the `sign` value carried in the URL's query parameters
(stated for base URLs that themselves contain no '?'). -/
theorem c5_round_trip (base_url pid merchant_key : String)
    (ptype out_trade_no notify_url return_url pname : Option String)
    (money : Option PyVal) (sitename : Option String) (now : Nat)
    (hq : '?' ∉ base_url.data) :
    lookupParam (parseQuery (extractQuery (generate_payment_url_v2 base_url pid
        merchant_key ptype out_trade_no notify_url return_url pname money sitename
        now).1)) "sign" =
      some (generate_sign_v2 (wrapStr (stripEmpty (stripReserved (parseQuery
        (extractQuery (generate_payment_url_v2 base_url pid merchant_key ptype
          out_trade_no notify_url return_url pname money sitename now).1)))))
        merchant_key) := by
  set P0 := v2BaseParams pid ptype out_trade_no notify_url return_url pname money
    sitename now with hP0
  set s0 := generate_sign_v2 (wrapStr P0) merchant_key with hs0
  have h1 : (generate_payment_url_v2 base_url pid merchant_key ptype out_trade_no
      notify_url return_url pname money sitename now).1 =
      base_url ++ "/submit?" ++ urlencode (P0 ++ [("sign", s0)]) := rfl
  rw [h1, extractQuery_submit _ _ hq]
  have hne : P0 ++ [("sign", s0)] ≠ [] := by simp
  rw [parseQuery_urlencode _ hne]
  have hw : wrapStr (P0 ++ [("sign", s0)]) = wrapStr P0 ++ [("sign", PyVal.str s0)] := by
    rw [wrapStr_append]
    rfl
  have h2 : generate_sign_v2 (wrapStr (stripEmpty (stripReserved
      (P0 ++ [("sign", s0)])))) merchant_key = s0 := by
    rw [generate_sign_v2_congr _ _ _ (signFilter_wrap_strips (P0 ++ [("sign", s0)])), hw]
    rw [generate_sign_v2_congr _ _ _
      (signFilter_append_drop (wrapStr P0) "sign" (PyVal.str s0)
        (by simp [signKeep, reservedKeys]))]
  rw [h2]
  rw [hP0]
  unfold v2BaseParams lookupParam
  cases sitename with
  | none => simp [List.find?]
  | some s =>
    by_cases hs : s != "" <;> simp [hs, List.find?]

/-- C5 witness: the round trip at concrete inputs. -/
theorem c5_round_trip_witness :
    lookupParam (parseQuery (extractQuery (generate_payment_url_v2
        "http://localhost:8080" "1001001276912812" "f872e1c662d41cf218b5dfa8328ae455"
        Option.none Option.none Option.none Option.none Option.none Option.none
        Option.none 1700000000).1)) "sign" =
      some (generate_sign_v2 (wrapStr (stripEmpty (stripReserved (parseQuery
        (extractQuery (generate_payment_url_v2 "http://localhost:8080"
          "1001001276912812" "f872e1c662d41cf218b5dfa8328ae455" Option.none Option.none
          Option.none Option.none Option.none Option.none Option.none
          1700000000).1))))) "f872e1c662d41cf218b5dfa8328ae455") :=
  c5_round_trip "http://localhost:8080" "1001001276912812"
    "f872e1c662d41cf218b5dfa8328ae455" Option.none Option.none Option.none Option.none
    Option.none Option.none Option.none 1700000000 (by decide)

/-- C6: both builders return `{base}/submit?` followed by the URL-encoding
of the complete parameter set (reserved entries included); the returned
params carry the computed signature under `sign` and `sign_type = MD5`;
omitted optional fields default (`type` to "alipay", `out_trade_no` to a
"TEST"-prefixed time-derived id). -/
theorem c6_url_assembly (base_url pid merchant_key : String)
    (ptype out_trade_no notify_url return_url pname : Option String)
    (money : Option PyVal) (sitename : Option String) (now : Nat)
    (amount product_name : String) :
    (generate_payment_url_v2 base_url pid merchant_key ptype out_trade_no notify_url
        return_url pname money sitename now).1 =
      base_url ++ "/submit?" ++ urlencode (generate_payment_url_v2 base_url pid
        merchant_key ptype out_trade_no notify_url return_url pname money sitename now).2 ∧
    (generate_payment_url_v2 base_url pid merchant_key ptype out_trade_no notify_url
        return_url pname money sitename now).2 =
      v2BaseParams pid ptype out_trade_no notify_url return_url pname money sitename now ++
        [("sign", generate_sign_v2 (wrapStr (v2BaseParams pid ptype out_trade_no notify_url
          return_url pname money sitename now)) merchant_key)] ∧
    lookupParam (generate_payment_url_v2 base_url pid merchant_key ptype out_trade_no
        notify_url return_url pname money sitename now).2 "sign" =
      some (generate_sign_v2 (wrapStr (v2BaseParams pid ptype out_trade_no notify_url
        return_url pname money sitename now)) merchant_key) ∧
    lookupParam (generate_payment_url_v2 base_url pid merchant_key ptype out_trade_no
        notify_url return_url pname money sitename now).2 "sign_type" = some "MD5" ∧
    lookupParam (v2BaseParams pid Option.none Option.none notify_url return_url pname
        money sitename now) "type" = some "alipay" ∧
    lookupParam (v2BaseParams pid Option.none Option.none notify_url return_url pname
        money sitename now) "out_trade_no" = some ("TEST" ++ toString now) ∧
    (generate_payment_url_v1 amount product_name now).1 =
      "http://localhost:8080" ++ "/submit?" ++
        urlencode (generate_payment_url_v1 amount product_name now).2 ∧
    lookupParam (generate_payment_url_v1 amount product_name now).2 "sign" =
      some (generate_sign_v1 (v1BaseParams amount product_name now) KEY_v1) ∧
    lookupParam (generate_payment_url_v1 amount product_name now).2 "sign_type" =
      some "MD5" ∧
    lookupParam (v1BaseParams amount product_name now) "type" = some "alipay" ∧
    lookupParam (v1BaseParams amount product_name now) "out_trade_no" =
      some ("TEST" ++ toString now) := by
  refine ⟨rfl, rfl, ?_, ?_, ?_, ?_, rfl, ?_, ?_, ?_, ?_⟩
  · unfold generate_payment_url_v2 v2BaseParams lookupParam
    cases sitename with
    | none => simp [List.find?]
    | some s =>
      by_cases hs : s != "" <;> simp [hs, List.find?]
  · unfold generate_payment_url_v2 v2BaseParams lookupParam
    cases sitename with
    | none => simp [List.find?]
    | some s =>
      by_cases hs : s != "" <;> simp [hs, List.find?]
  · unfold v2BaseParams lookupParam
    cases sitename with
    | none => simp [List.find?]
    | some s =>
      by_cases hs : s != "" <;> simp [hs, List.find?]
  · unfold v2BaseParams lookupParam
    cases sitename with
    | none => simp [List.find?]
    | some s =>
      by_cases hs : s != "" <;> simp [hs, List.find?]
  · unfold generate_payment_url_v1 v1BaseParams lookupParam
    simp [List.find?]
  · unfold generate_payment_url_v1 v1BaseParams lookupParam
    simp [List.find?]
  · unfold v1BaseParams lookupParam
    simp [List.find?]
  · unfold v1BaseParams lookupParam
    simp [List.find?]

end AliMPay
